import Mathlib

/-!
Shallow embedding of the credential/token lifecycle, permission evaluation and
onboarding choreography of the control-plane service
(`internal/core/services/authn_service.go`, `internal/core/services/authz_service.go`,
`internal/core/services/user_service.go`), together with the repository layer they
call into (`internal/adapters/repository/*`, SQL in `internal/adapters/database/queries`).

External collaborators (base64 codec, SHA-256, bcrypt hasher, JWT generator,
uuid parser, Kafka producer, SMTP notifier, SQL store availability) are modelled as
injected oracles in an environment record, mirroring the dependency-injected
interfaces of the Go code.  Persistent state is a record of the relevant tables.
UUIDs are modelled as naturals (uuid values are opaque identifiers; `uuid.String`
and `uuid.Parse` form a bijection on valid values).  Timestamps are integers;
`time.Time.Before` is `<`.
-/

/-- `user_status` enum from `migration/001_init.up.sql`. -/
inductive UserStatus
  | ACTIVE
  | SUSPENDED
  | PENDINGSETUP
  | PENDINGINVITE
deriving DecidableEq

/-- `token_scope` enum from `migration/001_init.up.sql`. -/
inductive TokenScope
  | PASSWORDRESET
  | EMAILVERIFICATION
  | INVITATION
deriving DecidableEq

/-- Row of the `users` table (fields used by this subsystem). -/
structure User where
  id : Nat
  tenantId : Nat
  email : String
  fullName : String
  status : UserStatus
  emailVerified : Bool
  lastLoginAt : Option Int
deriving DecidableEq

/-- Row of the `credentials` table: `user_id (primary key), password_hash`. -/
structure Credential where
  userId : Nat
  passwordHash : String
deriving DecidableEq

/-- Row of the `tokens` table: `hash (primary key), user_id, expiry, scope`. -/
structure StoredToken where
  hash : List Nat
  userId : Nat
  expiry : Int
  scope : TokenScope
deriving DecidableEq

/-- Row of the `roles` table. -/
structure Role where
  id : Nat
  tenantId : Nat
  name : String
  description : String
  permissions : List String
deriving DecidableEq

/-- Row of the `user_roles` assignment table. -/
structure RoleAssignment where
  userId : Nat
  tenantId : Nat
  roleId : Nat
deriving DecidableEq

/-- The durable state of the credential store (the single source of truth). -/
structure DBState where
  users : List User
  credentials : List Credential
  tokens : List StoredToken
  roles : List Role
  userRoles : List RoleAssignment
deriving DecidableEq

/-- `GetToken` query: `SELECT * FROM tokens WHERE hash = $1` (absent row = `sql.ErrNoRows`,
surfaced by the repository as a not-found error). -/
def getTokenByHash (db : DBState) (h : List Nat) : Option StoredToken :=
  db.tokens.find? (fun t => decide (t.hash = h))

/-- `DeleteToken` query: `DELETE FROM tokens WHERE hash = $1`. -/
def deleteTokenByHash (db : DBState) (h : List Nat) : DBState :=
  { db with tokens := db.tokens.filter (fun t => decide (¬ t.hash = h)) }

/-- `GetUserByID` lookup. -/
def getUserById (db : DBState) (uid : Nat) : Option User :=
  db.users.find? (fun u => decide (u.id = uid))

/-- `GetUserByEmail` lookup: match on email and tenant id. -/
def getUserByEmail (db : DBState) (email : String) (tid : Nat) : Option User :=
  db.users.find? (fun u => decide (u.email = email ∧ u.tenantId = tid))

/-- `GetCredential` query: `SELECT * FROM credentials WHERE user_id = $1`. -/
def getCredentialByUserId (db : DBState) (uid : Nat) : Option Credential :=
  db.credentials.find? (fun c => decide (c.userId = uid))

/-- `CreateCredential` query: `INSERT INTO credentials (user_id, password_hash)`. -/
def createCredentialDb (db : DBState) (uid : Nat) (passwordHash : String) : DBState :=
  { db with credentials := db.credentials ++ [⟨uid, passwordHash⟩] }

/-- `CreateToken` query: `INSERT INTO tokens (hash, user_id, expiry, scope)`. -/
def createTokenDb (db : DBState) (t : StoredToken) : DBState :=
  { db with tokens := db.tokens ++ [t] }

/-- `UpdateUserStatus` query: `UPDATE users SET status = $2 WHERE id = $1`. -/
def updateUserStatusDb (db : DBState) (uid : Nat) (st : UserStatus) : DBState :=
  { db with users := db.users.map (fun u => if u.id = uid then { u with status := st } else u) }

/-- `ActivateInvitedUser` query: `UPDATE users SET status = ACTIVE (literal), full_name = $2 WHERE id = $1`. -/
def activateInvitedUserDb (db : DBState) (uid : Nat) (fullName : String) : DBState :=
  { db with users := db.users.map (fun u =>
      if u.id = uid then { u with status := UserStatus.ACTIVE, fullName := fullName } else u) }

/-- `UpdateLastLogin` query: `UPDATE users SET last_login_at = NOW() WHERE id = $1`. -/
def updateLastLoginDb (db : DBState) (uid : Nat) (now : Int) : DBState :=
  { db with users := db.users.map (fun u => if u.id = uid then { u with lastLoginAt := some now } else u) }

/-- `UpdateEmailVerified` update on the `users` table. -/
def updateEmailVerifiedDb (db : DBState) (uid : Nat) (v : Bool) : DBState :=
  { db with users := db.users.map (fun u => if u.id = uid then { u with emailVerified := v } else u) }

/-- Outbound domain events of `internal/adapters/kafka/producer.go` (fields as in the Go
structs; uuid-valued fields are carried as the underlying identifier). -/
inductive DomainEvent
  | userCreated (userId tenantId : Nat) (email : String) (isInitialAdmin : Bool)
  | userInvited (userId tenantId : Nat) (email fullName : String)
  | userUpdated (userId tenantId : Nat)
  | userDeleted (userId tenantId : Nat)
  | roleAssigned (userId tenantId roleId : Nat)
  | roleRevoked (userId tenantId roleId : Nat)
  | userStatusChanged (userId tenantId : Nat) (oldStatus newStatus changedBy reason : String)
      (timestamp : Int)
  | passwordChanged (userId tenantId : Nat) (changedBy method : String) (timestamp : Int)
  | userLogin (userId : Nat) (tenantId : String) (timestamp : Int)
deriving DecidableEq

/-- An email handed to the notification producer (`SendEmail(ctx, to, subject, body)`).
The `body` field records the embedded link target; the surrounding constant
boilerplate text of the Go template is not modelled. -/
structure EmailMsg where
  recipient : String
  subject : String
  body : String
deriving DecidableEq

/-- Result of a service call: Go `(value, error)` pairs. -/
inductive Res (α : Type)
  | ok (a : α)
  | err (msg : String)
deriving DecidableEq

/-- Environment of injected collaborators for `AuthnService` and `UserService`:
pure oracles for the codec/hasher/JWT collaborators, success flags for the
store, producer and notifier calls (a `false` flag models the collaborator
returning an error), and the identifiers drawn by `uuid.New`. -/
structure AuthnEnv where
  now : Int
  decode : String → Option (List Nat)
  encode : List Nat → String
  sha256 : List Nat → List Nat
  randBytes : List Nat
  randOk : Bool
  parseUUID : String → Option Nat
  hashPassword : String → Option String
  comparePassword : String → String → Bool
  genAccessToken : Nat → String → String → Option String
  genRefreshToken : Nat → String → String → Option String
  createTokenOk : Bool
  createCredentialOk : Bool
  updateStatusOk : Bool
  activateInvitedOk : Bool
  updateEmailVerifiedOk : Bool
  updateLastLoginOk : Bool
  deleteTokenOk : Bool
  createUserOk : Bool
  createRoleOk : Bool
  assignRoleOk : Bool
  sendEmailOk : Bool
  pubUserCreatedOk : Bool
  pubStatusChangedOk : Bool
  pubPasswordChangedOk : Bool
  pubUserLoginOk : Bool
  pubUserUpdatedOk : Bool
  newUserId : Nat
  newRoleId : Nat

/-- Outcome of an authn/user service call: result, new store state, emails handed to the
notifier, events actually published. -/
structure CallOut (α : Type) where
  res : Res α
  db : DBState
  emails : List EmailMsg
  events : List DomainEvent
deriving DecidableEq

/-- JWT claims (`internal/adapters/token`, `Claims` struct: UserID, TenantID, Email). -/
structure Claims where
  userID : String
  tenantID : String
  email : String

/-- Environment of injected collaborators for `AuthzService`: token validator, uuid
parser, role repository, and the optional OPA client.  `opa = none` models no engine
configured (`s.opaClient == nil`); when configured, the evaluation oracle returns
`none` when the engine call itself errors and `some verdict` otherwise. -/
structure AuthzEnv where
  validateToken : String → Option Claims
  parseUUID : String → Option Nat
  listUserRoles : Nat → Option (List Role)
  opa : Option (Claims → List String → String → String → Option Bool)

/-- Result of `CheckAccess`: Go `(bool, string, error)`; `failed` records whether the
returned error was non-nil. -/
structure AccessResult where
  allowed : Bool
  reason : String
  failed : Bool
deriving DecidableEq

/-- `AuthzService.checkSimplePermission`: exact match, wildcard resource, wildcard
action, full wildcard, checked in that order; no match denies.  The Go code looks the
strings up in a `map[string]bool` built from the union of role permissions; this is
membership in the collected permission list. -/
def checkSimplePermission (permissions : List String) (action resource : String) :
    Bool × String :=
  let requiredPermission := resource ++ ":" ++ action
  if requiredPermission ∈ permissions then (true, "Access granted")
  else if (resource ++ ":*") ∈ permissions then (true, "Access granted (wildcard resource)")
  else if ("*:" ++ action) ∈ permissions then (true, "Access granted (wildcard action)")
  else if "*:*" ∈ permissions then (true, "Access granted (super admin)")
  else (false, "Access denied")

/-- Union of the permission strings of all listed roles (the Go code accumulates them
into a set `map[string]bool`; only membership matters downstream). -/
def collectPermissions (roles : List Role) : List String :=
  roles.flatMap Role.permissions

/-- `AuthzService.CheckAccess`: validate token, parse user id, list roles, collect
permissions; if OPA is configured its verdict is authoritative and local evaluation is
the fallback only when the OPA call errors; with no OPA, local evaluation decides. -/
def checkAccess (env : AuthzEnv) (accessToken action resource : String) : AccessResult :=
  match env.validateToken accessToken with
  | none => ⟨false, "Invalid or expired token", true⟩
  | some claims =>
    match env.parseUUID claims.userID with
    | none => ⟨false, "Invalid user ID", true⟩
    | some userID =>
      match env.listUserRoles userID with
      | none => ⟨false, "Failed to retrieve user roles", true⟩
      | some roles =>
        let permissions := collectPermissions roles
        match env.opa with
        | some evalOpa =>
          match evalOpa claims permissions action resource with
          | none =>
            let r := checkSimplePermission permissions action resource
            ⟨r.1, r.2, false⟩
          | some true => ⟨true, "Access granted by policy", false⟩
          | some false => ⟨false, "Access denied by policy", false⟩
        | none =>
          let r := checkSimplePermission permissions action resource
          ⟨r.1, r.2, false⟩

/-- `AuthnService.GeneratePasswordSetupToken` (Step 12): validate the user id, draw 32
random bytes, base64-encode the plaintext, SHA-256 the raw bytes, store
`{hash, userID, expiry = now + 24h, scope = PASSWORD_RESET}`, then send the setup
email.  A persistence failure aborts before the email; an email failure is returned
after the token was persisted (the token is not retracted). -/
def generatePasswordSetupToken (env : AuthnEnv) (db : DBState)
    (userID tenantID email : String) : CallOut String :=
  match env.parseUUID userID with
  | none => ⟨Res.err "invalid user ID", db, [], []⟩
  | some uid =>
    if env.randOk = false then ⟨Res.err "failed to generate random token", db, [], []⟩
    else
      let token := env.encode env.randBytes
      let hash := env.sha256 env.randBytes
      if env.createTokenOk = false then ⟨Res.err "failed to store token", db, [], []⟩
      else
        let db1 := createTokenDb db ⟨hash, uid, env.now + 24 * 60 * 60, TokenScope.PASSWORDRESET⟩
        if env.sendEmailOk = false then ⟨Res.err "failed to send email", db1, [], []⟩
        else
          ⟨Res.ok token, db1,
           [⟨email, "Set Your Password - Welcome to the Platform",
             "https://app.erp.com/setup-password?token=" ++ token⟩], []⟩

/-- `AuthnService.SetInitialPassword` (Step 14): decode and hash the supplied token,
fetch the stored row by hash, reject when `expiry` is before `now`, hash the new
password, create the credential, fetch the user, set the status to `ACTIVE`, publish
the status-changed and password-changed events (failures only logged), and delete the
consumed token. -/
def setInitialPassword (env : AuthnEnv) (db : DBState) (setupToken newPassword : String) :
    CallOut Unit :=
  match env.decode setupToken with
  | none => ⟨Res.err "invalid token format", db, [], []⟩
  | some tokenBytes =>
    let tokenHash := env.sha256 tokenBytes
    match getTokenByHash db tokenHash with
    | none => ⟨Res.err "invalid or expired token", db, [], []⟩
    | some storedToken =>
      if storedToken.expiry < env.now then ⟨Res.err "token has expired", db, [], []⟩
      else
        match env.hashPassword newPassword with
        | none => ⟨Res.err "failed to hash password", db, [], []⟩
        | some passwordHash =>
          if env.createCredentialOk = false then
            ⟨Res.err "failed to create credential", db, [], []⟩
          else
            let db1 := createCredentialDb db storedToken.userId passwordHash
            match getUserById db1 storedToken.userId with
            | none => ⟨Res.err "failed to get user", db1, [], []⟩
            | some user =>
              if env.updateStatusOk = false then
                ⟨Res.err "failed to update user status", db1, [], []⟩
              else
                let db2 := updateUserStatusDb db1 storedToken.userId UserStatus.ACTIVE
                let ev1 : List DomainEvent :=
                  if env.pubStatusChangedOk then
                    [DomainEvent.userStatusChanged storedToken.userId user.tenantId
                      "PENDING_SETUP" "ACTIVE" "system" "Initial password set" env.now]
                  else []
                let ev2 : List DomainEvent :=
                  if env.pubPasswordChangedOk then
                    [DomainEvent.passwordChanged storedToken.userId user.tenantId
                      "self" "initial_setup" env.now]
                  else []
                if env.deleteTokenOk = false then
                  ⟨Res.err "failed to delete token", db2, [], ev1 ++ ev2⟩
                else ⟨Res.ok (), deleteTokenByHash db2 tokenHash, [], ev1 ++ ev2⟩

/-- `AuthnService.ResetPassword`: delegates to `SetInitialPassword`. -/
def resetPassword (env : AuthnEnv) (db : DBState) (resetToken newPassword : String) :
    CallOut Unit :=
  setInitialPassword env db resetToken newPassword

/-- `AuthnService.RegisterInvitedUser`: same token decode/fetch/expiry steps, then
credential creation, `ActivateInvitedUser` (sets status `ACTIVE` and the supplied full
name), JWT issuance for auto-login, best-effort last-login update, and deletion of the
consumed token. -/
def registerInvitedUser (env : AuthnEnv) (db : DBState)
    (invitationToken fullName password : String) : CallOut (String × String × User) :=
  match env.decode invitationToken with
  | none => ⟨Res.err "invalid token format", db, [], []⟩
  | some tokenBytes =>
    let tokenHash := env.sha256 tokenBytes
    match getTokenByHash db tokenHash with
    | none => ⟨Res.err "invalid or expired invitation", db, [], []⟩
    | some storedToken =>
      if storedToken.expiry < env.now then ⟨Res.err "invitation has expired", db, [], []⟩
      else
        match env.hashPassword password with
        | none => ⟨Res.err "failed to hash password", db, [], []⟩
        | some passwordHash =>
          if env.createCredentialOk = false then
            ⟨Res.err "failed to create credential", db, [], []⟩
          else
            let db1 := createCredentialDb db storedToken.userId passwordHash
            if env.activateInvitedOk = false then
              ⟨Res.err "failed to activate user", db1, [], []⟩
            else
              let db2 := activateInvitedUserDb db1 storedToken.userId fullName
              match getUserById db2 storedToken.userId with
              | none => ⟨Res.err "failed to get user", db2, [], []⟩
              | some user =>
                match env.genAccessToken storedToken.userId (toString user.tenantId) user.email with
                | none => ⟨Res.err "failed to generate access token", db2, [], []⟩
                | some accessToken =>
                  match env.genRefreshToken storedToken.userId (toString user.tenantId) user.email with
                  | none => ⟨Res.err "failed to generate refresh token", db2, [], []⟩
                  | some refreshToken =>
                    let db3 :=
                      if env.updateLastLoginOk then
                        updateLastLoginDb db2 storedToken.userId env.now
                      else db2
                    if env.deleteTokenOk = false then
                      ⟨Res.err "failed to delete token", db3, [], []⟩
                    else
                      ⟨Res.ok (accessToken, refreshToken, user),
                       deleteTokenByHash db3 tokenHash, [], []⟩

/-- Calls `Login` makes against the credential store and the password hasher; recorded
so that "rejected before password comparison is attempted" is expressible. -/
inductive CredCall
  | fetchCredential (userId : Nat)
  | comparePassword (storedHash suppliedPassword : String)
deriving DecidableEq

/-- Outcome of `Login`: result, new state, published events, and the trace of
credential-store / hasher interactions. -/
structure LoginOut where
  res : Res (String × String × User)
  db : DBState
  events : List DomainEvent
  trace : List CredCall
deriving DecidableEq

/-- `AuthnService.Login`: parse the tenant id, fetch the user by email and tenant,
reject when the status is not `ACTIVE`, fetch the credential, compare the password,
issue the JWT pair, best-effort last-login update and login-event publish. -/
def login (env : AuthnEnv) (db : DBState) (email password tenantIdentifier : String) :
    LoginOut :=
  match env.parseUUID tenantIdentifier with
  | none => ⟨Res.err "invalid tenant ID", db, [], []⟩
  | some tenantID =>
    match getUserByEmail db email tenantID with
    | none => ⟨Res.err "invalid credentials", db, [], []⟩
    | some user =>
      if user.status ≠ UserStatus.ACTIVE then
        ⟨Res.err "user account is not active", db, [], []⟩
      else
        match getCredentialByUserId db user.id with
        | none => ⟨Res.err "invalid credentials", db, [], [CredCall.fetchCredential user.id]⟩
        | some credential =>
          let trace := [CredCall.fetchCredential user.id,
                        CredCall.comparePassword credential.passwordHash password]
          if env.comparePassword credential.passwordHash password = false then
            ⟨Res.err "invalid credentials", db, [], trace⟩
          else
            match env.genAccessToken user.id tenantIdentifier email with
            | none => ⟨Res.err "failed to generate access token", db, [], trace⟩
            | some accessToken =>
              match env.genRefreshToken user.id tenantIdentifier email with
              | none => ⟨Res.err "failed to generate refresh token", db, [], trace⟩
              | some refreshToken =>
                let db1 :=
                  if env.updateLastLoginOk then updateLastLoginDb db user.id env.now else db
                let evs : List DomainEvent :=
                  if env.pubUserLoginOk then
                    [DomainEvent.userLogin user.id tenantIdentifier env.now]
                  else []
                ⟨Res.ok (accessToken, refreshToken, user), db1, evs, trace⟩

/-- `AuthnService.ForgotPassword`: parse the tenant id; a failed user lookup is
swallowed and reported as success (no token, no email); otherwise delegate to
`GeneratePasswordSetupToken`. -/
def forgotPassword (env : AuthnEnv) (db : DBState) (email tenantIdentifier : String) :
    CallOut Unit :=
  match env.parseUUID tenantIdentifier with
  | none => ⟨Res.err "invalid tenant ID", db, [], []⟩
  | some tenantID =>
    match getUserByEmail db email tenantID with
    | none => ⟨Res.ok (), db, [], []⟩
    | some user =>
      let g := generatePasswordSetupToken env db (toString user.id) tenantIdentifier email
      match g.res with
      | Res.err _ => ⟨Res.err "failed to generate reset token", g.db, g.emails, g.events⟩
      | Res.ok _ => ⟨Res.ok (), g.db, g.emails, g.events⟩

/-- `AuthnService.VerifyEmail`: decode and hash, fetch the stored token, reject when
expired, reject when `scope` is not `EMAIL_VERIFICATION`, set the email-verified flag,
fetch the user, delete the consumed token, and best-effort publish a user-updated
event. -/
def verifyEmail (env : AuthnEnv) (db : DBState) (verificationToken : String) :
    CallOut Unit :=
  match env.decode verificationToken with
  | none => ⟨Res.err "invalid token format", db, [], []⟩
  | some tokenBytes =>
    let tokenHash := env.sha256 tokenBytes
    match getTokenByHash db tokenHash with
    | none => ⟨Res.err "invalid or expired verification token", db, [], []⟩
    | some storedToken =>
      if storedToken.expiry < env.now then
        ⟨Res.err "verification token has expired", db, [], []⟩
      else
        if storedToken.scope ≠ TokenScope.EMAILVERIFICATION then
          ⟨Res.err "invalid token scope", db, [], []⟩
        else
          if env.updateEmailVerifiedOk = false then
            ⟨Res.err "failed to update email verification status", db, [], []⟩
          else
            let db1 := updateEmailVerifiedDb db storedToken.userId true
            match getUserById db1 storedToken.userId with
            | none => ⟨Res.err "failed to get user", db1, [], []⟩
            | some user =>
              if env.deleteTokenOk = false then
                ⟨Res.err "failed to delete token", db1, [], []⟩
              else
                let db2 := deleteTokenByHash db1 tokenHash
                let evs : List DomainEvent :=
                  if env.pubUserUpdatedOk then
                    [DomainEvent.userUpdated storedToken.userId user.tenantId]
                  else []
                ⟨Res.ok (), db2, [], evs⟩

/-- Permission list of the default "Tenant Admin" role created by
`UserService.CreateInitialAdmin`. -/
def tenantAdminPermissions : List String :=
  ["users:create", "users:read", "users:update", "users:delete",
   "roles:create", "roles:read", "roles:update", "roles:delete",
   "departments:create", "departments:read", "departments:update", "departments:delete",
   "designations:create", "designations:read", "designations:update", "designations:delete"]

/-- `UserService.CreateInitialAdmin` (Step 10, invoked by the tenant-onboarding
consumer in `cmd/service/main.go`): parse the tenant id, create the admin user with
status `PENDING_SETUP` (the `CreateInitialAdmin` SQL hard-codes the status), create
the default "Tenant Admin" role, assign it, and publish a user-created event with
`isInitialAdmin = true`.  A publish failure is returned to the caller; the committed
user/role/assignment rows are not reverted. -/
def createInitialAdmin (env : AuthnEnv) (db : DBState) (tenantID email fullName : String) :
    CallOut User :=
  match env.parseUUID tenantID with
  | none => ⟨Res.err "invalid tenant ID", db, [], []⟩
  | some tid =>
    if env.createUserOk = false then ⟨Res.err "failed to create admin user", db, [], []⟩
    else
      let user : User := ⟨env.newUserId, tid, email, fullName, UserStatus.PENDINGSETUP, false, none⟩
      let db1 := { db with users := db.users ++ [user] }
      if env.createRoleOk = false then ⟨Res.err "failed to create admin role", db1, [], []⟩
      else
        let role : Role := ⟨env.newRoleId, tid, "Tenant Admin",
          "Full administrative access to tenant", tenantAdminPermissions⟩
        let db2 := { db1 with roles := db1.roles ++ [role] }
        if env.assignRoleOk = false then ⟨Res.err "failed to assign admin role", db2, [], []⟩
        else
          let db3 := { db2 with userRoles := db2.userRoles ++ [⟨user.id, tid, role.id⟩] }
          if env.pubUserCreatedOk = false then
            ⟨Res.err "failed to publish user created event", db3, [], []⟩
          else
            ⟨Res.ok user, db3, [], [DomainEvent.userCreated user.id tid email true]⟩

/-- Concrete environment for scenario instances: every collaborator succeeds, the
clock reads 5, the codec maps the plaintext "t" to the byte string `[0]`, and the
digest function is the identity on byte strings. -/
def env0 : AuthnEnv :=
  { now := 5
  , decode := fun s => if s = "t" then some [0] else none
  , encode := fun _ => "t"
  , sha256 := fun bs => bs
  , randBytes := [0]
  , randOk := true
  , parseUUID := fun s => if s = "tenant-2" then some 2 else if s = "user-1" then some 1 else none
  , hashPassword := fun p => some ("H" ++ p)
  , comparePassword := fun h p => decide (h = "H" ++ p)
  , genAccessToken := fun _ _ _ => some "acc"
  , genRefreshToken := fun _ _ _ => some "ref"
  , createTokenOk := true
  , createCredentialOk := true
  , updateStatusOk := true
  , activateInvitedOk := true
  , updateEmailVerifiedOk := true
  , updateLastLoginOk := true
  , deleteTokenOk := true
  , createUserOk := true
  , createRoleOk := true
  , assignRoleOk := true
  , sendEmailOk := true
  , pubUserCreatedOk := true
  , pubStatusChangedOk := true
  , pubPasswordChangedOk := true
  , pubUserLoginOk := true
  , pubUserUpdatedOk := true
  , newUserId := 7
  , newRoleId := 8 }

/-- A user in `PENDING_SETUP`, the state `CreateInitialAdmin` leaves behind. -/
def user1 : User := ⟨1, 2, "a@x.com", "A", UserStatus.PENDINGSETUP, false, none⟩

/-- A stored password-reset token for `user1` whose expiry equals the clock of `env0`. -/
def tok0 : StoredToken := ⟨[0], 1, 5, TokenScope.PASSWORDRESET⟩

/-- Store holding exactly `user1` and `tok0`. -/
def db0 : DBState := ⟨[user1], [], [tok0], [], []⟩

/-- After filtering out every row whose hash is `h`, a lookup by hash `h` finds nothing. -/
theorem find?_hash_filter (l : List StoredToken) (h : List Nat) :
    (l.filter (fun t => decide (¬ t.hash = h))).find? (fun t => decide (t.hash = h)) = none := by
  induction l with
  | nil => rfl
  | cons t ts ih =>
    by_cases ht : t.hash = h
    · simpa [List.filter_cons, ht] using ih
    · simp [List.filter_cons, ht, ih]

/-- `DeleteToken` followed by `GetToken` on the same hash fails. -/
theorem getToken_deleteToken (db : DBState) (h : List Nat) :
    getTokenByHash (deleteTokenByHash db h) h = none := by
  simpa [getTokenByHash, deleteTokenByHash] using find?_hash_filter db.tokens h

/-- A successful `SetInitialPassword` ends with the consumed token deleted: looking the
digest up in the resulting store fails. -/
theorem setInitialPassword_ok_deletes (env : AuthnEnv) (db : DBState)
    (tokStr pwd : String) (bytes : List Nat)
    (hdec : env.decode tokStr = some bytes)
    (hok : (setInitialPassword env db tokStr pwd).res = Res.ok ()) :
    getTokenByHash (setInitialPassword env db tokStr pwd).db (env.sha256 bytes) = none := by
  simp only [setInitialPassword, hdec] at hok ⊢
  cases hget : getTokenByHash db (env.sha256 bytes) with
  | none => simp [hget] at hok
  | some st =>
    simp only [hget] at hok ⊢
    by_cases hexp : st.expiry < env.now
    · simp [hexp] at hok
    · simp only [if_neg hexp] at hok ⊢
      cases hhp : env.hashPassword pwd with
      | none => simp [hhp] at hok
      | some ph =>
        simp only [hhp] at hok ⊢
        by_cases hcc : env.createCredentialOk = false
        · simp [hcc] at hok
        · simp only [if_neg hcc] at hok ⊢
          cases hgu : getUserById (createCredentialDb db st.userId ph) st.userId with
          | none => simp [hgu] at hok
          | some u =>
            simp only [hgu] at hok ⊢
            by_cases hus : env.updateStatusOk = false
            · simp [hus] at hok
            · simp only [if_neg hus] at hok ⊢
              by_cases hdt : env.deleteTokenOk = false
              · simp [hdt] at hok
              · simp only [if_neg hdt] at hok ⊢
                exact getToken_deleteToken _ _

/-- Environment identical to `env0` but with the clock one tick past the expiry of `tok0`. -/
def envPast : AuthnEnv := { env0 with now := 6 }

/-- C1: the claim states that a stored token with `expiry <= now` is always rejected
with an expiry error, in particular one whose expiry equals the current instant.  In
the code the check is `storedToken.Expiry.Time.Before(time.Now())`, which is strict:
at `expiry = now` redemption is not rejected — here a token whose expiry equals the
clock is redeemed successfully by `SetInitialPassword`. -/
theorem c1_counterexample :
    env0.decode "t" = some [0]
    ∧ getTokenByHash db0 (env0.sha256 [0]) = some tok0
    ∧ tok0.expiry = env0.now
    ∧ (setInitialPassword env0 db0 "t" "pw").res = Res.ok () := by decide

/-- C1 (amended): a stored token whose expiry is strictly before the current time is
rejected with an expiry error by `SetInitialPassword`, `ResetPassword` and
`RegisterInvitedUser`, regardless of the supplied password; a token whose expiry
equals the current instant is not rejected by the expiry check. -/
theorem c1_strictly_expired_rejected (env : AuthnEnv) (db : DBState)
    (tokStr newPassword fullName : String) (bytes : List Nat) (st : StoredToken)
    (hdec : env.decode tokStr = some bytes)
    (hget : getTokenByHash db (env.sha256 bytes) = some st)
    (hexp : st.expiry < env.now) :
    (setInitialPassword env db tokStr newPassword).res = Res.err "token has expired"
    ∧ (resetPassword env db tokStr newPassword).res = Res.err "token has expired"
    ∧ (registerInvitedUser env db tokStr fullName newPassword).res =
        Res.err "invitation has expired" := by
  refine ⟨?_, ?_, ?_⟩ <;>
    simp [setInitialPassword, resetPassword, registerInvitedUser, hdec, hget, hexp]

/-- Witness for C1 (amended) at a concrete expired token. -/
theorem c1_strictly_expired_rejected_witness :
    envPast.decode "t" = some [0]
    ∧ getTokenByHash db0 (envPast.sha256 [0]) = some tok0
    ∧ tok0.expiry < envPast.now
    ∧ ((setInitialPassword envPast db0 "t" "pw").res = Res.err "token has expired"
       ∧ (resetPassword envPast db0 "t" "pw").res = Res.err "token has expired"
       ∧ (registerInvitedUser envPast db0 "t" "A" "pw").res =
           Res.err "invitation has expired") :=
  ⟨by decide, by decide, by decide,
   c1_strictly_expired_rejected envPast db0 "t" "pw" "A" [0] tok0
     (by decide) (by decide) (by decide)⟩

/-- C2: a successful `SetInitialPassword` deletes the consumed token as part of the
redemption, so the digest can no longer be retrieved, and a second redemption call
with the same plaintext (under any environment agreeing with the first on the codec)
fails with the token-not-found error. -/
theorem c2_token_single_use (env env2 : AuthnEnv) (db : DBState)
    (tokStr pwd pwd2 : String) (bytes : List Nat)
    (hdec : env.decode tokStr = some bytes)
    (hdec2 : env2.decode tokStr = some bytes)
    (hsha : env2.sha256 bytes = env.sha256 bytes)
    (hok : (setInitialPassword env db tokStr pwd).res = Res.ok ()) :
    getTokenByHash (setInitialPassword env db tokStr pwd).db (env.sha256 bytes) = none
    ∧ (setInitialPassword env2 (setInitialPassword env db tokStr pwd).db tokStr pwd2).res =
        Res.err "invalid or expired token" := by
  have hdel := setInitialPassword_ok_deletes env db tokStr pwd bytes hdec hok
  refine ⟨hdel, ?_⟩
  obtain ⟨db2, hdb2⟩ : ∃ d, (setInitialPassword env db tokStr pwd).db = d := ⟨_, rfl⟩
  rw [hdb2] at hdel ⊢
  simp only [setInitialPassword, hdec2, hsha, hdel]

/-- Witness for C2: a concrete first redemption succeeds and the immediate replay fails. -/
theorem c2_token_single_use_witness :
    env0.decode "t" = some [0]
    ∧ (setInitialPassword env0 db0 "t" "pw").res = Res.ok ()
    ∧ (getTokenByHash (setInitialPassword env0 db0 "t" "pw").db (env0.sha256 [0]) = none
       ∧ (setInitialPassword env0 (setInitialPassword env0 db0 "t" "pw").db "t" "pw2").res =
           Res.err "invalid or expired token") :=
  ⟨by decide, by decide,
   c2_token_single_use env0 env0 db0 "t" "pw" "pw2" [0]
     (by decide) (by decide) rfl (by decide)⟩

/-- C3: local permission evaluation grants access iff the set contains
`resource:action`, `resource:*`, `*:action` or `*:*`, checked in that order with the
first match fixing the reason, and denies otherwise; any role set holding `*:*`
allows every pair, and a set holding only `users:read` allows `(read, users)` and
denies `(write, users)`. -/
theorem c3_local_permission_eval (perms : List String) (action resource : String)
    (roles : List Role) :
    ((checkSimplePermission perms action resource).1 = true ↔
      ((resource ++ ":" ++ action) ∈ perms ∨ (resource ++ ":*") ∈ perms ∨
        ("*:" ++ action) ∈ perms ∨ "*:*" ∈ perms))
    ∧ ((resource ++ ":" ++ action) ∈ perms →
        checkSimplePermission perms action resource = (true, "Access granted"))
    ∧ ((resource ++ ":" ++ action) ∉ perms → (resource ++ ":*") ∈ perms →
        checkSimplePermission perms action resource = (true, "Access granted (wildcard resource)"))
    ∧ ((resource ++ ":" ++ action) ∉ perms → (resource ++ ":*") ∉ perms →
        ("*:" ++ action) ∈ perms →
        checkSimplePermission perms action resource = (true, "Access granted (wildcard action)"))
    ∧ ((resource ++ ":" ++ action) ∉ perms → (resource ++ ":*") ∉ perms →
        ("*:" ++ action) ∉ perms → "*:*" ∈ perms →
        checkSimplePermission perms action resource = (true, "Access granted (super admin)"))
    ∧ ((resource ++ ":" ++ action) ∉ perms → (resource ++ ":*") ∉ perms →
        ("*:" ++ action) ∉ perms → "*:*" ∉ perms →
        checkSimplePermission perms action resource = (false, "Access denied"))
    ∧ ("*:*" ∈ collectPermissions roles →
        (checkSimplePermission (collectPermissions roles) action resource).1 = true)
    ∧ (checkSimplePermission (collectPermissions
        [⟨0, 0, "Reader", "", ["users:read"]⟩]) "read" "users" = (true, "Access granted"))
    ∧ ((checkSimplePermission (collectPermissions
        [⟨0, 0, "Reader", "", ["users:read"]⟩]) "write" "users").1 = false) := by
  refine ⟨?_, ?_, ?_, ?_, ?_, ?_, ?_, by decide, by decide⟩
  · simp only [checkSimplePermission]
    split_ifs <;> simp [*]
  · intro h1; simp [checkSimplePermission, h1]
  · intro h1 h2; simp [checkSimplePermission, h1, h2]
  · intro h1 h2 h3; simp [checkSimplePermission, h1, h2, h3]
  · intro h1 h2 h3 h4; simp [checkSimplePermission, h1, h2, h3, h4]
  · intro h1 h2 h3 h4; simp [checkSimplePermission, h1, h2, h3, h4]
  · intro h
    simp only [checkSimplePermission]
    split_ifs with h1 h2 h3 h4 <;> simp_all

/-- Witness for C3 at a concrete permission set, discharging the membership hypotheses. -/
theorem c3_local_permission_eval_witness :
    ("users:read" ∈ ["users:read"])
    ∧ (checkSimplePermission ["users:read"] "read" "users").1 = true :=
  ⟨by decide,
   ((c3_local_permission_eval ["users:read"] "read" "users" []).1).mpr
     (Or.inl (by decide))⟩

/-- C4: with an external policy engine configured, its verdict is the result — a deny
is authoritative (no local consultation) and an allow grants; local evaluation decides
only when the engine call itself errors, or when no engine is configured. -/
theorem c4_opa_verdict_authoritative (env : AuthzEnv) (accessToken action resource : String)
    (claims : Claims) (userID : Nat) (roles : List Role)
    (evalOpa : Claims → List String → String → String → Option Bool)
    (hv : env.validateToken accessToken = some claims)
    (hp : env.parseUUID claims.userID = some userID)
    (hr : env.listUserRoles userID = some roles) :
    (env.opa = some evalOpa →
      (evalOpa claims (collectPermissions roles) action resource = some false →
        checkAccess env accessToken action resource = ⟨false, "Access denied by policy", false⟩)
      ∧ (evalOpa claims (collectPermissions roles) action resource = some true →
        checkAccess env accessToken action resource = ⟨true, "Access granted by policy", false⟩)
      ∧ (evalOpa claims (collectPermissions roles) action resource = none →
        checkAccess env accessToken action resource =
          ⟨(checkSimplePermission (collectPermissions roles) action resource).1,
           (checkSimplePermission (collectPermissions roles) action resource).2, false⟩))
    ∧ (env.opa = none →
      checkAccess env accessToken action resource =
        ⟨(checkSimplePermission (collectPermissions roles) action resource).1,
         (checkSimplePermission (collectPermissions roles) action resource).2, false⟩) := by
  constructor
  · intro ho
    refine ⟨fun hd => ?_, fun ha => ?_, fun he => ?_⟩ <;>
      simp [checkAccess, hv, hp, hr, ho, *]
  · intro ho
    simp [checkAccess, hv, hp, hr, ho]

/-- Concrete JWT claims for the authorization scenarios. -/
def claims0 : Claims := ⟨"user-1", "tenant-2", "a@x.com"⟩

/-- A role granting only `users:read`. -/
def readerRole : Role := ⟨4, 2, "Reader", "", ["users:read"]⟩

/-- A configured policy engine that denies every input. -/
def denyAll : Claims → List String → String → String → Option Bool :=
  fun _ _ _ _ => some false

/-- Authorization environment whose policy engine denies everything, while the roles of the user would locally grant `(read, users)`. -/
def authzEnvDeny : AuthzEnv :=
  { validateToken := fun s => if s = "jwt" then some claims0 else none
  , parseUUID := fun s => if s = "user-1" then some 1 else none
  , listUserRoles := fun _ => some [readerRole]
  , opa := some denyAll }

/-- Witness for C4: the deny of the engine is the result even though local evaluation of
`users:read` would grant `(read, users)`. -/
theorem c4_opa_verdict_authoritative_witness :
    authzEnvDeny.validateToken "jwt" = some claims0
    ∧ authzEnvDeny.parseUUID claims0.userID = some 1
    ∧ authzEnvDeny.listUserRoles 1 = some [readerRole]
    ∧ authzEnvDeny.opa = some denyAll
    ∧ denyAll claims0 (collectPermissions [readerRole]) "read" "users" = some false
    ∧ (checkSimplePermission (collectPermissions [readerRole]) "read" "users").1 = true
    ∧ checkAccess authzEnvDeny "jwt" "read" "users" = ⟨false, "Access denied by policy", false⟩ :=
  ⟨rfl, rfl, rfl, rfl, rfl, by decide,
   ((c4_opa_verdict_authoritative authzEnvDeny "jwt" "read" "users" claims0 1 [readerRole]
       denyAll rfl rfl rfl).1 rfl).1 rfl⟩

/-- C5: in setup-token issuance, a persistence failure aborts with an error before any
email is attempted (state unchanged, no email); an email failure after persistence is
reported as an error but the stored token row remains (not retracted). -/
theorem c5_issuance_failure_ordering (env : AuthnEnv) (db : DBState)
    (userID tenantID email : String) (uid : Nat)
    (hpu : env.parseUUID userID = some uid)
    (hr : env.randOk = true) :
    (env.createTokenOk = false →
      (generatePasswordSetupToken env db userID tenantID email).res =
        Res.err "failed to store token"
      ∧ (generatePasswordSetupToken env db userID tenantID email).db = db
      ∧ (generatePasswordSetupToken env db userID tenantID email).emails = [])
    ∧ (env.createTokenOk = true → env.sendEmailOk = false →
      (generatePasswordSetupToken env db userID tenantID email).res =
        Res.err "failed to send email"
      ∧ (generatePasswordSetupToken env db userID tenantID email).db.tokens =
          db.tokens ++
            [⟨env.sha256 env.randBytes, uid, env.now + 24 * 60 * 60, TokenScope.PASSWORDRESET⟩]) := by
  constructor
  · intro hct
    refine ⟨?_, ?_, ?_⟩ <;> simp [generatePasswordSetupToken, hpu, hr, hct]
  · intro hct hse
    constructor <;>
      simp [generatePasswordSetupToken, createTokenDb, hpu, hr, hct, hse]

/-- Environment in which the token store rejects the insert. -/
def envNoStore : AuthnEnv := { env0 with createTokenOk := false }

/-- Environment in which the email notifier fails. -/
def envNoEmail : AuthnEnv := { env0 with sendEmailOk := false }

/-- Witness for C5 under both failing collaborators. -/
theorem c5_issuance_failure_ordering_witness :
    envNoStore.parseUUID "user-1" = some 1
    ∧ envNoStore.randOk = true
    ∧ envNoStore.createTokenOk = false
    ∧ ((generatePasswordSetupToken envNoStore db0 "user-1" "tenant-2" "a@x.com").res =
         Res.err "failed to store token"
       ∧ (generatePasswordSetupToken envNoStore db0 "user-1" "tenant-2" "a@x.com").db = db0
       ∧ (generatePasswordSetupToken envNoStore db0 "user-1" "tenant-2" "a@x.com").emails = [])
    ∧ envNoEmail.createTokenOk = true
    ∧ envNoEmail.sendEmailOk = false
    ∧ ((generatePasswordSetupToken envNoEmail db0 "user-1" "tenant-2" "a@x.com").res =
         Res.err "failed to send email"
       ∧ (generatePasswordSetupToken envNoEmail db0 "user-1" "tenant-2" "a@x.com").db.tokens =
           db0.tokens ++ [⟨envNoEmail.sha256 envNoEmail.randBytes, 1,
             envNoEmail.now + 24 * 60 * 60, TokenScope.PASSWORDRESET⟩]) :=
  ⟨by decide, rfl, rfl,
   (c5_issuance_failure_ordering envNoStore db0 "user-1" "tenant-2" "a@x.com" 1
      (by decide) rfl).1 rfl,
   rfl, rfl,
   (c5_issuance_failure_ordering envNoEmail db0 "user-1" "tenant-2" "a@x.com" 1
      (by decide) rfl).2 rfl rfl⟩

/-- C6: a user whose status is `SUSPENDED`, `PENDING_SETUP` or `PENDING_INVITE` is
rejected by `Login` with the not-active error before the credential store is read and
before any password comparison, whatever the supplied password. -/
theorem c6_inactive_login_rejected (env : AuthnEnv) (db : DBState)
    (email password tenantIdentifier : String) (tid : Nat) (user : User)
    (hp : env.parseUUID tenantIdentifier = some tid)
    (hu : getUserByEmail db email tid = some user)
    (hs : user.status = UserStatus.SUSPENDED ∨ user.status = UserStatus.PENDINGSETUP ∨
          user.status = UserStatus.PENDINGINVITE) :
    (login env db email password tenantIdentifier).res = Res.err "user account is not active"
    ∧ (login env db email password tenantIdentifier).trace = [] := by
  have hne : user.status ≠ UserStatus.ACTIVE := by
    rcases hs with h | h | h <;> simp [h]
  constructor <;> simp [login, hp, hu, hne]

/-- A suspended user in the same tenant as `user1`. -/
def userSusp : User := ⟨3, 2, "s@x.com", "S", UserStatus.SUSPENDED, false, none⟩

/-- Store holding `user1`, the suspended user and `tok0`. -/
def dbSusp : DBState := ⟨[user1, userSusp], [], [tok0], [], []⟩

/-- Witness for C6 at a concrete suspended user. -/
theorem c6_inactive_login_rejected_witness :
    env0.parseUUID "tenant-2" = some 2
    ∧ getUserByEmail dbSusp "s@x.com" 2 = some userSusp
    ∧ userSusp.status = UserStatus.SUSPENDED
    ∧ ((login env0 dbSusp "s@x.com" "pw" "tenant-2").res =
         Res.err "user account is not active"
       ∧ (login env0 dbSusp "s@x.com" "pw" "tenant-2").trace = []) :=
  ⟨by decide, by decide, rfl,
   c6_inactive_login_rejected env0 dbSusp "s@x.com" "pw" "tenant-2" 2 userSusp
     (by decide) (by decide) (Or.inl rfl)⟩

/-- C7: when the user lookup fails, `ForgotPassword` swallows the error and returns
success with the store unchanged, no token issued and no notification sent. -/
theorem c7_forgot_password_hides_missing_user (env : AuthnEnv) (db : DBState)
    (email tenantIdentifier : String) (tid : Nat)
    (hp : env.parseUUID tenantIdentifier = some tid)
    (hu : getUserByEmail db email tid = none) :
    (forgotPassword env db email tenantIdentifier).res = Res.ok ()
    ∧ (forgotPassword env db email tenantIdentifier).db = db
    ∧ (forgotPassword env db email tenantIdentifier).emails = []
    ∧ (forgotPassword env db email tenantIdentifier).events = [] := by
  refine ⟨?_, ?_, ?_, ?_⟩ <;> simp [forgotPassword, hp, hu]

/-- Witness for C7 at an email address not present in the store. -/
theorem c7_forgot_password_hides_missing_user_witness :
    env0.parseUUID "tenant-2" = some 2
    ∧ getUserByEmail db0 "missing@x.com" 2 = none
    ∧ ((forgotPassword env0 db0 "missing@x.com" "tenant-2").res = Res.ok ()
       ∧ (forgotPassword env0 db0 "missing@x.com" "tenant-2").db = db0
       ∧ (forgotPassword env0 db0 "missing@x.com" "tenant-2").emails = []
       ∧ (forgotPassword env0 db0 "missing@x.com" "tenant-2").events = []) :=
  ⟨by decide, by decide,
   c7_forgot_password_hides_missing_user env0 db0 "missing@x.com" "tenant-2" 2
     (by decide) (by decide)⟩

/-- C8: handling a tenant-provisioned event creates the admin user with status
`PENDING_SETUP`, creates a "Tenant Admin" role for that tenant whose permissions
include `users:create/read/update/delete`, assigns it to the user, and publishes a
user-created event with `isInitialAdmin = true` for that user id. -/
theorem c8_tenant_provisioned_creates_admin (env : AuthnEnv) (db : DBState)
    (tenantID email fullName : String) (tid : Nat)
    (hp : env.parseUUID tenantID = some tid)
    (h1 : env.createUserOk = true) (h2 : env.createRoleOk = true)
    (h3 : env.assignRoleOk = true) (h4 : env.pubUserCreatedOk = true) :
    (createInitialAdmin env db tenantID email fullName).res =
      Res.ok ⟨env.newUserId, tid, email, fullName, UserStatus.PENDINGSETUP, false, none⟩
    ∧ (⟨env.newUserId, tid, email, fullName, UserStatus.PENDINGSETUP, false, none⟩ : User) ∈
        (createInitialAdmin env db tenantID email fullName).db.users
    ∧ (∃ r ∈ (createInitialAdmin env db tenantID email fullName).db.roles,
        r.tenantId = tid ∧ r.name = "Tenant Admin" ∧
        "users:create" ∈ r.permissions ∧ "users:read" ∈ r.permissions ∧
        "users:update" ∈ r.permissions ∧ "users:delete" ∈ r.permissions)
    ∧ (⟨env.newUserId, tid, env.newRoleId⟩ : RoleAssignment) ∈
        (createInitialAdmin env db tenantID email fullName).db.userRoles
    ∧ DomainEvent.userCreated env.newUserId tid email true ∈
        (createInitialAdmin env db tenantID email fullName).events := by
  refine ⟨?_, ?_, ?_, ?_, ?_⟩
  · simp [createInitialAdmin, hp, h1, h2, h3, h4]
  · simp [createInitialAdmin, hp, h1, h2, h3, h4]
  · refine ⟨⟨env.newRoleId, tid, "Tenant Admin", "Full administrative access to tenant",
      tenantAdminPermissions⟩, ?_, rfl, rfl, by simp [tenantAdminPermissions],
      by simp [tenantAdminPermissions], by simp [tenantAdminPermissions],
      by simp [tenantAdminPermissions]⟩
    simp [createInitialAdmin, hp, h1, h2, h3, h4]
  · simp [createInitialAdmin, hp, h1, h2, h3, h4]
  · simp [createInitialAdmin, hp, h1, h2, h3, h4]

/-- Witness for C8 at a concrete tenant-provisioned event. -/
theorem c8_tenant_provisioned_creates_admin_witness :
    env0.parseUUID "tenant-2" = some 2
    ∧ env0.createUserOk = true
    ∧ ((createInitialAdmin env0 db0 "tenant-2" "a@x.com" "A").res =
         Res.ok ⟨7, 2, "a@x.com", "A", UserStatus.PENDINGSETUP, false, none⟩
       ∧ (⟨7, 2, "a@x.com", "A", UserStatus.PENDINGSETUP, false, none⟩ : User) ∈
           (createInitialAdmin env0 db0 "tenant-2" "a@x.com" "A").db.users
       ∧ (∃ r ∈ (createInitialAdmin env0 db0 "tenant-2" "a@x.com" "A").db.roles,
           r.tenantId = 2 ∧ r.name = "Tenant Admin" ∧
           "users:create" ∈ r.permissions ∧ "users:read" ∈ r.permissions ∧
           "users:update" ∈ r.permissions ∧ "users:delete" ∈ r.permissions)
       ∧ (⟨7, 2, 8⟩ : RoleAssignment) ∈
           (createInitialAdmin env0 db0 "tenant-2" "a@x.com" "A").db.userRoles
       ∧ DomainEvent.userCreated 7 2 "a@x.com" true ∈
           (createInitialAdmin env0 db0 "tenant-2" "a@x.com" "A").events) :=
  ⟨by decide, rfl,
   c8_tenant_provisioned_creates_admin env0 db0 "tenant-2" "a@x.com" "A" 2
     (by decide) rfl rfl rfl rfl⟩

/-- Environment identical to `env0` except that publishing the status-changed event
fails. -/
def envNoPubStatus : AuthnEnv := { env0 with pubStatusChangedOk := false }

/-- C9: the claim states that for every operation committing a state change and then
publishing a follow-up event, a publish failure is surfaced as an error to the
caller.  In `SetInitialPassword` the status-changed (and password-changed) publish
failures are only logged: here the publish fails, the credential is committed, the
status event is absent, and yet the call returns success — no error is surfaced. -/
theorem c9_counterexample :
    envNoPubStatus.pubStatusChangedOk = false
    ∧ (setInitialPassword envNoPubStatus db0 "t" "pw").res = Res.ok ()
    ∧ (⟨1, "Hpw"⟩ : Credential) ∈ (setInitialPassword envNoPubStatus db0 "t" "pw").db.credentials
    ∧ DomainEvent.userStatusChanged 1 2 "PENDING_SETUP" "ACTIVE" "system"
        "Initial password set" 5 ∉ (setInitialPassword envNoPubStatus db0 "t" "pw").events := by
  decide

/-- C9 (amended): a publish failure never reverts the committed state change, but
whether it is surfaced depends on the operation — `CreateInitialAdmin` returns the
publish error to its caller with the created user and role assignment intact, whereas
`SetInitialPassword` only logs the status-changed publish failure and still reports
success, its committed credential intact. -/
theorem c9_publish_failure_behaviour (env : AuthnEnv) (db : DBState)
    (tenantID email fullName tokStr pwd : String) :
    (∀ tid, env.parseUUID tenantID = some tid → env.createUserOk = true →
      env.createRoleOk = true → env.assignRoleOk = true → env.pubUserCreatedOk = false →
      (createInitialAdmin env db tenantID email fullName).res =
        Res.err "failed to publish user created event"
      ∧ (⟨env.newUserId, tid, email, fullName, UserStatus.PENDINGSETUP, false, none⟩ : User) ∈
          (createInitialAdmin env db tenantID email fullName).db.users
      ∧ (⟨env.newUserId, tid, env.newRoleId⟩ : RoleAssignment) ∈
          (createInitialAdmin env db tenantID email fullName).db.userRoles)
    ∧ (∀ bytes st ph u, env.decode tokStr = some bytes →
      getTokenByHash db (env.sha256 bytes) = some st →
      ¬ st.expiry < env.now →
      env.hashPassword pwd = some ph →
      env.createCredentialOk = true →
      getUserById (createCredentialDb db st.userId ph) st.userId = some u →
      env.updateStatusOk = true → env.deleteTokenOk = true →
      env.pubStatusChangedOk = false →
      (setInitialPassword env db tokStr pwd).res = Res.ok ()
      ∧ (⟨st.userId, ph⟩ : Credential) ∈ (setInitialPassword env db tokStr pwd).db.credentials) := by
  constructor
  · intro tid hp h1 h2 h3 h4
    refine ⟨?_, ?_, ?_⟩ <;> simp [createInitialAdmin, hp, h1, h2, h3, h4]
  · intro bytes st ph u hdec hget hexp hhp hcc hgu hus hdt hpub
    refine ⟨?_, ?_⟩
    · simp [setInitialPassword, hdec, hget, hexp, hhp, hcc, hgu, hus, hdt, hpub]
    · simp only [setInitialPassword, hdec, hget, if_neg hexp, hhp, hcc, hgu, hus, hdt, hpub]
      simp [deleteTokenByHash, updateUserStatusDb, createCredentialDb]

/-- Environment identical to `env0` except that publishing the user-created event
fails. -/
def envNoPubCreated : AuthnEnv := { env0 with pubUserCreatedOk := false }

/-- Witness for C9 (amended) under both failing producers. -/
theorem c9_publish_failure_behaviour_witness :
    envNoPubCreated.pubUserCreatedOk = false
    ∧ ((createInitialAdmin envNoPubCreated db0 "tenant-2" "a@x.com" "A").res =
         Res.err "failed to publish user created event"
       ∧ (⟨7, 2, "a@x.com", "A", UserStatus.PENDINGSETUP, false, none⟩ : User) ∈
           (createInitialAdmin envNoPubCreated db0 "tenant-2" "a@x.com" "A").db.users
       ∧ (⟨7, 2, 8⟩ : RoleAssignment) ∈
           (createInitialAdmin envNoPubCreated db0 "tenant-2" "a@x.com" "A").db.userRoles)
    ∧ envNoPubStatus.pubStatusChangedOk = false
    ∧ ((setInitialPassword envNoPubStatus db0 "t" "pw").res = Res.ok ()
       ∧ (⟨1, "Hpw"⟩ : Credential) ∈
           (setInitialPassword envNoPubStatus db0 "t" "pw").db.credentials) :=
  ⟨rfl,
   (c9_publish_failure_behaviour envNoPubCreated db0 "tenant-2" "a@x.com" "A" "t" "pw").1 2
     (by decide) rfl rfl rfl rfl,
   rfl,
   (c9_publish_failure_behaviour envNoPubStatus db0 "tenant-2" "a@x.com" "A" "t" "pw").2
     [0] tok0 "Hpw" user1 (by decide) (by decide) (by decide) (by decide) rfl
     (by decide) rfl rfl rfl⟩

/-- C10: `SetInitialPassword` (and `ResetPassword`, its delegate) never consults the
scope of the stored token: a stored, unexpired token whose digest matches is redeemed even
when its scope is `EMAIL_VERIFICATION`, creating the credential and activating the
user; `VerifyEmail`, by contrast, rejects any token whose scope is not
`EMAIL_VERIFICATION` with a scope error. -/
theorem c10_scope_unchecked_on_redeem (env : AuthnEnv) (db : DBState) (tokStr pwd : String) :
    (∀ bytes st ph u, env.decode tokStr = some bytes →
      getTokenByHash db (env.sha256 bytes) = some st →
      st.scope = TokenScope.EMAILVERIFICATION →
      ¬ st.expiry < env.now →
      env.hashPassword pwd = some ph →
      env.createCredentialOk = true →
      getUserById (createCredentialDb db st.userId ph) st.userId = some u →
      env.updateStatusOk = true → env.deleteTokenOk = true →
      (setInitialPassword env db tokStr pwd).res = Res.ok ()
      ∧ (resetPassword env db tokStr pwd).res = Res.ok ()
      ∧ (⟨st.userId, ph⟩ : Credential) ∈ (setInitialPassword env db tokStr pwd).db.credentials
      ∧ (∀ v ∈ (setInitialPassword env db tokStr pwd).db.users,
          v.id = st.userId → v.status = UserStatus.ACTIVE))
    ∧ (∀ bytes st, env.decode tokStr = some bytes →
      getTokenByHash db (env.sha256 bytes) = some st →
      ¬ st.expiry < env.now →
      st.scope ≠ TokenScope.EMAILVERIFICATION →
      (verifyEmail env db tokStr).res = Res.err "invalid token scope") := by
  constructor
  · intro bytes st ph u hdec hget hscope hexp hhp hcc hgu hus hdt
    refine ⟨?_, ?_, ?_, ?_⟩
    · simp [setInitialPassword, hdec, hget, hexp, hhp, hcc, hgu, hus, hdt]
    · simp [resetPassword, setInitialPassword, hdec, hget, hexp, hhp, hcc, hgu, hus, hdt]
    · simp only [setInitialPassword, hdec, hget, if_neg hexp, hhp, hcc, hgu, hus, hdt]
      simp [deleteTokenByHash, updateUserStatusDb, createCredentialDb]
    · intro v hv hvid
      simp only [setInitialPassword, hdec, hget, if_neg hexp, hhp, hcc, hgu, hus, hdt] at hv
      simp [deleteTokenByHash, updateUserStatusDb, createCredentialDb] at hv
      obtain ⟨u0, hu0, hv0⟩ := hv
      subst hv0
      by_cases h : u0.id = st.userId
      · simp [h]
      · simp only [if_neg h] at hvid ⊢
        exact absurd hvid h
  · intro bytes st hdec hget hexp hscope
    simp [verifyEmail, hdec, hget, hexp, hscope]

/-- A stored token identical to `tok0` but persisted with the `EMAIL_VERIFICATION`
scope. -/
def tokEV : StoredToken := ⟨[0], 1, 5, TokenScope.EMAILVERIFICATION⟩

/-- Store holding `user1` and the email-verification token. -/
def dbEV : DBState := ⟨[user1], [], [tokEV], [], []⟩

/-- Witness for C10: the email-verification-scoped token is redeemed by
`SetInitialPassword`, while `VerifyEmail` rejects the password-reset-scoped token. -/
theorem c10_scope_unchecked_on_redeem_witness :
    getTokenByHash dbEV (env0.sha256 [0]) = some tokEV
    ∧ tokEV.scope = TokenScope.EMAILVERIFICATION
    ∧ ((setInitialPassword env0 dbEV "t" "pw").res = Res.ok ()
       ∧ (resetPassword env0 dbEV "t" "pw").res = Res.ok ()
       ∧ (⟨1, "Hpw"⟩ : Credential) ∈ (setInitialPassword env0 dbEV "t" "pw").db.credentials
       ∧ (∀ v ∈ (setInitialPassword env0 dbEV "t" "pw").db.users,
           v.id = 1 → v.status = UserStatus.ACTIVE))
    ∧ tok0.scope ≠ TokenScope.EMAILVERIFICATION
    ∧ (verifyEmail env0 db0 "t").res = Res.err "invalid token scope" :=
  ⟨by decide, rfl,
   (c10_scope_unchecked_on_redeem env0 dbEV "t" "pw").1 [0] tokEV "Hpw" user1
     (by decide) (by decide) rfl (by decide) rfl rfl (by decide) rfl rfl,
   by decide,
   (c10_scope_unchecked_on_redeem env0 db0 "t" "pw").2 [0] tok0
     (by decide) (by decide) (by decide) (by decide)⟩
